import Mathlib

/-!
Shallow embedding of the ai_voice pizza-ordering core (app/business_logic.py,
app/settings.py, app/agent_functions.py), together with theorems checking the
natural-language specification against it.

Python strings are modelled as Lean `String` (logically a list of `Char`);
Python dicts with string keys are modelled as association lists that keep
insertion order and overwrite in place, exactly like CPython dicts.
-/

deriving instance DecidableEq for Except

/-- Python whitespace characters removed by `str.strip()` (ASCII subset, which
covers every string appearing in this code base). -/
def isSpaceChar (c : Char) : Bool :=
  c == ' ' || c == '\t' || c == '\n' || c == '\r' || c == '\x0b' || c == '\x0c'

/-- Python `s.strip()`. -/
def pyStrip (s : String) : String :=
  String.mk (((s.data.dropWhile isSpaceChar).reverse.dropWhile isSpaceChar).reverse)

/-- Python `s.lower()` (ASCII case folding; the menu and alias strings in the
source are ASCII). -/
def pyLower (s : String) : String :=
  String.mk (s.data.map Char.toLower)

/-- `_normalize` from business_logic.py: `(s or "").strip().lower()`. -/
def pyNormalize (s : String) : String :=
  pyLower (pyStrip s)

/-- Contiguous-sublist test on character lists. -/
def listIsInfix (needle : List Char) : List Char → Bool
  | [] => needle.isEmpty
  | c :: rest => needle.isPrefixOf (c :: rest) || listIsInfix needle rest

/-- Python substring test `needle in hay` on strings. -/
def pyIn (needle hay : String) : Bool :=
  listIsInfix needle.data hay.data

/-- Python `quantity or 1` for an optional int: `None` and `0` are falsy. -/
def pyOrOne (q : Option Int) : Int :=
  match q with
  | none => 1
  | some n => if n = 0 then 1 else n

/-- Ordered-dict lookup (`d[k]` / `k in d`). -/
def dictLookup {α : Type} : List (String × α) → String → Option α
  | [], _ => none
  | p :: rest, k => if p.1 == k then some p.2 else dictLookup rest k

/-- Ordered-dict assignment `d[k] = v`: overwrites in place, keeping the key's
original position, or appends a new key at the end (CPython dict semantics). -/
def dictInsert {α : Type} : List (String × α) → String → α → List (String × α)
  | [], k, v => [(k, v)]
  | p :: rest, k, v => if p.1 == k then (k, v) :: rest else p :: dictInsert rest k v

/-- Ordered-dict `d.pop(k)` (key removal; keys are unique by construction). -/
def dictErase {α : Type} : List (String × α) → String → List (String × α)
  | [], _ => []
  | p :: rest, k => if p.1 == k then dictErase rest k else p :: dictErase rest k

/-- A cart entry as built by `add_to_cart`.  Entries created by `add_to_cart`
carry no `quantity` key; `modify_cart_item` / `set_size_quantity` may attach
one later, hence the `Option Int`. -/
structure CartItem where
  item : String
  toppings : List String
  size : Option String
  customerName : Option String
  address : Option String
  quantity : Option Int
deriving DecidableEq, Repr

/-- Placeholder used for out-of-range list reads (never reached after the
bounds checks that guard every indexed access in the source). -/
def defaultCartItem : CartItem :=
  { item := "", toppings := [], size := none, customerName := none,
    address := none, quantity := none }

/-- The canonical normalized menu shape produced by settings._normalize_remote_menu. -/
structure Menu where
  flavors : List String
  toppings : List String
  addons : List String
  sizes : List String
  prices : List (String × List (String × Option ℚ))
deriving DecidableEq, Repr

/-- `_empty_menu()` from settings.py. -/
def emptyMenu : Menu :=
  { flavors := [], toppings := [], addons := [], sizes := [], prices := [] }

/-- `TOPPING_ALIASES` from business_logic.py.  Python stores the variants in a
`set`, whose iteration order is unspecified; the source-literal order is used
here (the claims under study never depend on variant order inside one entry). -/
def TOPPING_ALIASES : List (String × List String) :=
  [("paneer", ["paneer"]),
   ("onion", ["onion"]),
   ("capsicum", ["capsicum", "caps"]),
   ("mushrooms", ["mushrooms", "mushroom"]),
   ("sweet corn", ["sweet corn", "corn"])]

/-- `VALID_ORDER_TYPES` from business_logic.py. -/
def VALID_ORDER_TYPES : List (String × String) :=
  [("pickup", "pickup"),
   ("pick up", "pickup"),
   ("pick-up", "pickup"),
   ("p", "pickup"),
   ("delivery", "delivery"),
   ("d", "delivery")]

/-- The `canonical_map` built at the top of `_match_with_aliases`:
normalized spelling, mapped to the display form, later duplicates
overwriting earlier ones in place. -/
def buildCanonicalMap (canonicalList : List String) : List (String × String) :=
  canonicalList.foldl (fun acc c => dictInsert acc (pyNormalize c) c) []

/-- The per-entry test of the alias loop in `_match_with_aliases`: the entry
fires if the input equals the normalized canonical key, or equals a normalized
variant, or is a substring of a variant, or a variant is a substring of it.
The returned value does not depend on which of these tests fired. -/
def entryMatches (v : String) (e : String × List String) : Bool :=
  (v == pyNormalize e.1) ||
    e.2.any (fun a => v == pyNormalize a || pyIn v (pyNormalize a) || pyIn (pyNormalize a) v)

/-- The `for canonical, alias_set in aliases.items()` loop of
`_match_with_aliases`: first entry that fires wins, returning
`canonical_map.get(canonical_norm, canonical)`. -/
def aliasLoop (v : String) (cmap : List (String × String)) :
    List (String × List String) → Option String
  | [] => none
  | e :: rest =>
    if entryMatches v e then some ((dictLookup cmap (pyNormalize e.1)).getD e.1)
    else aliasLoop v cmap rest

/-- `_match_with_aliases(value_norm, canonical_list, aliases)` from
business_logic.py: empty input resolves to nothing; rule 1 is an exact
normalized lookup in the canonical map; rule 2 is the alias loop; rule 3 is a
substring scan over the canonical map in insertion order. -/
def matchWithAliases (value : String) (canonicalList : List String)
    (aliases : List (String × List String)) : Option String :=
  if value == "" then none
  else
    let v := pyNormalize value
    let cmap := buildCanonicalMap canonicalList
    match dictLookup cmap v with
    | some orig => some orig
    | none =>
      match aliasLoop v cmap aliases with
      | some r => some r
      | none => (cmap.find? (fun p => pyIn v p.1 || pyIn p.1 v)).map (fun p => p.2)

/-- Result of `add_to_cart`.  `err msg` is the dict `{"ok": False, "error": msg}`;
`ok n it` is `{"ok": True, "cart_count": n, "item": it}`.  `crash` marks the
`NameError` the source raises when `quantity or 1` is negative: `range(q)` is
then empty, so `item_obj` is unbound at the `return` (the dispatcher would turn
this exception into `{"ok": False, ...}`). -/
inductive AddToCartResult
  | err (msg : String)
  | ok (cartCount : Nat) (item : CartItem)
  | crash
deriving DecidableEq, Repr

/-- The `size or default_size` computation of `add_to_cart`: an absent or empty
size falls back to the first menu size (or `None` when the menu lists none). -/
def defaultedSize (menu : Menu) (size : Option String) : Option String :=
  match size with
  | some s => if s == "" then menu.sizes.head? else some s
  | none => menu.sizes.head?

/-- The topping loop shared by `add_to_cart` and `modify_cart_item`: the input
toppings are already normalized by the caller; blank entries are skipped; the
first entry that `_match_with_aliases` cannot resolve aborts with that
(normalized) name; otherwise the canonical names are collected in order. -/
def processToppings (menuToppings : List String)
    (aliases : List (String × List String)) : List String → Except String (List String)
  | [] => Except.ok []
  | t :: rest =>
    if t == "" then processToppings menuToppings aliases rest
    else
      match matchWithAliases t menuToppings aliases with
      | none => Except.error t
      | some m => (processToppings menuToppings aliases rest).map (fun ts => m :: ts)

/-- `add_to_cart(item, toppings, customer_name, address, size=, quantity=)` from
business_logic.py, for one session's cart.  The live menu is a parameter (the
source reads it through `settings.get_menu()`).  Returns the result dict and
the cart after the call. -/
def addToCart (menu : Menu) (cart : List CartItem) (item : String)
    (toppings : List String) (customerName address size : Option String)
    (quantity : Option Int) : AddToCartResult × List CartItem :=
  if item == "" then (.err "No item specified.", cart)
  else if (cart.length : Int) + pyOrOne quantity > 5 then
    (.err "Max 5 pizzas per order.", cart)
  else
    match matchWithAliases (pyNormalize item) menu.flavors [] with
    | none => (.err ("\x27" ++ item ++ "\x27 is not on the menu."), cart)
    | some canonicalItem =>
      match processToppings menu.toppings TOPPING_ALIASES (toppings.map pyNormalize) with
      | .error t => (.err ("Topping \x27" ++ t ++ "\x27 not available."), cart)
      | .ok topsOut =>
        let itemObj : CartItem :=
          { item := canonicalItem, toppings := topsOut, size := defaultedSize menu size,
            customerName := customerName, address := address, quantity := none }
        if pyOrOne quantity < 1 then (.crash, cart)
        else
          (.ok (cart.length + (pyOrOne quantity).toNat) itemObj,
           cart ++ List.replicate (pyOrOne quantity).toNat itemObj)

/-- Result of `modify_cart_item`: `errIndex n` is
`{"ok": False, "error": "Index out of range.", "cart_count": n}`; `err msg` a
plain error dict; `ok it n` is `{"ok": True, "item": it, "cart_count": n}`. -/
inductive ModifyResult
  | errIndex (cartCount : Nat)
  | err (msg : String)
  | ok (item : CartItem) (cartCount : Nat)
deriving DecidableEq, Repr

/-- The tail of `modify_cart_item` after flavor and toppings were handled:
`if size:` and `if quantity:` update the entry in place (Python truthiness:
an empty size or a zero quantity is skipped). -/
def finishModify (cart : List CartItem) (n : Nat) (it : CartItem)
    (size : Option String) (quantity : Option Int) : ModifyResult × List CartItem :=
  let it₂ := match size with
    | some s => if s == "" then it else { it with size := some s }
    | none => it
  let it₃ := match quantity with
    | some q => if q = 0 then it₂ else { it₂ with quantity := some q }
    | none => it₂
  (.ok it₃ cart.length, cart.set n it₃)

/-- `modify_cart_item(index, flavor, toppings, size, quantity, addons)` from
business_logic.py.  The source mutates the entry dict in place, so a topping
failure leaves an already-applied flavor change in the cart; `addons` is
accepted and ignored by the source, and is omitted here. -/
def modifyCartItem (menu : Menu) (cart : List CartItem) (index : Int)
    (flavor : Option String) (toppings : Option (List String))
    (size : Option String) (quantity : Option Int) : ModifyResult × List CartItem :=
  if 0 ≤ index ∧ index < (cart.length : Int) then
    let n := index.toNat
    let it₀ := cart.getD n defaultCartItem
    let flavorStep : Except String CartItem :=
      match flavor with
      | none => .ok it₀
      | some f =>
        if f == "" then .ok it₀
        else
          match matchWithAliases (pyNormalize f) menu.flavors [] with
          | none => .error ("\x27" ++ f ++ "\x27 is not on the menu.")
          | some m => .ok { it₀ with item := m }
    match flavorStep with
    | .error msg => (.err msg, cart)
    | .ok it₁ =>
      match toppings with
      | none => finishModify cart n it₁ size quantity
      | some ts =>
        match processToppings menu.toppings TOPPING_ALIASES (ts.map pyNormalize) with
        | .error t => (.err ("Topping \x27" ++ t ++ "\x27 not available."), cart.set n it₁)
        | .ok tops => finishModify cart n { it₁ with toppings := tops } size quantity
  else (.errIndex cart.length, cart)

/-- Result of `set_size_quantity`: `err msg` a plain error dict, `ok it` is
`{"ok": True, "item": it}`. -/
inductive SetSizeQtyResult
  | err (msg : String)
  | ok (item : CartItem)
deriving DecidableEq, Repr

/-- `set_size_quantity(index, size, quantity)` from business_logic.py: the
index defaults to the last entry; `if size:` / `if quantity:` attach the new
values (no bound of any kind is checked on `quantity`). -/
def setSizeQuantity (cart : List CartItem) (index : Option Int)
    (size : Option String) (quantity : Option Int) : SetSizeQtyResult × List CartItem :=
  if cart.isEmpty then (.err "Cart is empty.", cart)
  else
    let i : Int := match index with
      | some ix => ix
      | none => (cart.length : Int) - 1
    if 0 ≤ i ∧ i < (cart.length : Int) then
      let n := i.toNat
      let it₀ := cart.getD n defaultCartItem
      let it₁ := match size with
        | some s => if s == "" then it₀ else { it₀ with size := some s }
        | none => it₀
      let it₂ := match quantity with
        | some q => if q = 0 then it₁ else { it₁ with quantity := some q }
        | none => it₁
      (.ok it₂, cart.set n it₂)
    else (.err "Index out of range.", cart)

/-- The quantity a cart entry contributes to the session's total active pizza
quantity: its `quantity` field when present, else 1 (entries created by
`add_to_cart` carry no such field). -/
def entryQuantity (it : CartItem) : Int :=
  match it.quantity with
  | some q => q
  | none => 1

/-- Total active pizza quantity of a cart, in the sense of the invariant
claimed for MAX_PIZZAS. -/
def totalActiveQuantity (cart : List CartItem) : Int :=
  (cart.map entryQuantity).sum

/-- Reference-level model of the session cart, needed to reason about
`get_cart`'s `CART.copy()`: in Python the cart is a list of references to item
dicts, and `list.copy()` duplicates only the list of references.  `heap` holds
the item objects, addressed by position; `cartRefs` is the live cart's list of
references into it. -/
structure PyCartState where
  heap : List CartItem
  cartRefs : List Nat
deriving DecidableEq, Repr

/-- `get_cart`'s returned `items` list: `CART.copy()`, a fresh list holding the
same references as the live cart. -/
def getCartSnapshot (s : PyCartState) : List Nat :=
  s.cartRefs

/-- The sequence of item values a list of references denotes in a heap. -/
def resolveRefs (heap : List CartItem) (refs : List Nat) : List CartItem :=
  refs.map (fun r => heap.getD r defaultCartItem)

/-- The item values a later `get_cart` would observe in the live cart. -/
def liveCartView (s : PyCartState) : List CartItem :=
  resolveRefs s.heap s.cartRefs

/-- In-place mutation of the item object at reference `r` (e.g.
`snapshot_item["size"] = "Large"` on a dict obtained from the snapshot). -/
def mutateItemObject (s : PyCartState) (r : Nat) (f : CartItem → CartItem) : PyCartState :=
  { s with heap := s.heap.set r (f (s.heap.getD r defaultCartItem)) }

/-- `CART.append(item_obj)` at reference level: a fresh object is allocated and
its reference appended to the live cart only. -/
def appendNewItem (s : PyCartState) (it : CartItem) : PyCartState :=
  { heap := s.heap ++ [it], cartRefs := s.cartRefs ++ [s.heap.length] }

/-- Well-formedness: every live cart reference points into the heap. -/
def WFCartState (s : PyCartState) : Prop :=
  ∀ r ∈ s.cartRefs, r < s.heap.length

/-- `normalize_phone(p)` from business_logic.py: keep the decimal digits; a
string that began with `+` is valid iff it has 7–15 digits; otherwise any
string with 7–15 digits gets a `+` prefixed. -/
def normalizePhone (p : String) : Option String :=
  if p == "" then none
  else
    let psData := (pyStrip p).data
    let digits := psData.filter Char.isDigit
    if psData.head? == some '+' then
      if 7 ≤ digits.length ∧ digits.length ≤ 15 then some ("+" ++ String.mk digits) else none
    else if 7 ≤ digits.length ∧ digits.length ≤ 15 then some ("+" ++ String.mk digits)
    else none

/-- `save_order_type(call_sid, order_type)` from business_logic.py, acting on
one session's order-type slot (`store["value"]`; the `saved_at` timestamp the
source also records is irrelevant to the claims and omitted).  Returns the
value the call returns together with the new slot. -/
def saveOrderType (orderType : Option String) (slot : Option String) :
    Option String × Option String :=
  match orderType with
  | none => (none, slot)
  | some ot₀ =>
    let ot := pyNormalize ot₀
    match dictLookup VALID_ORDER_TYPES ot with
    | some v => (some v, some v)
    | none =>
      if pyIn "pick" ot then (some "pickup", some "pickup")
      else if pyIn "deliv" ot then (some "delivery", some "delivery")
      else (none, slot)

/-- The values an order-type slot may legally hold. -/
def slotOK (s : Option String) : Prop :=
  s = none ∨ s = some "pickup" ∨ s = some "delivery"

/-- The menu cache module state of settings.py: `_cached_menu` and
`_cached_menu_ts`. -/
structure MenuCache where
  cachedMenu : Option Menu
  cachedTs : Option Int
deriving DecidableEq, Repr

/-- Outcome of `fetch_remote_menu(MENU_API_URL)` followed by
`_normalize_remote_menu`: either a normalized menu, or failure (a `None` /
non-dict / empty response, and likewise a normalization exception, all of
which make `get_menu` fall into its empty-menu branch). -/
inductive FetchOutcome
  | success (menu : Menu)
  | failure
deriving DecidableEq, Repr

/-- The cache-hit test at the top of `get_menu`:
`_cached_menu is not None and not force_refresh and _cached_menu_ts and
(now - _cached_menu_ts) < _MENU_CACHE_TTL` (a zero timestamp is falsy). -/
def menuCacheHit (st : MenuCache) (forceRefresh : Bool) (now ttl : Int) : Bool :=
  match st.cachedMenu, st.cachedTs with
  | some _, some ts => !forceRefresh && !(ts == 0) && decide (now - ts < ttl)
  | _, _ => false

/-- `get_menu(force_refresh)` from settings.py.  `urlSet` says whether
`MENU_API_URL` is set; `fetch` is the outcome of the remote fetch (consulted
only when the cache misses).  Returns the menu and the new cache state. -/
def getMenu (urlSet : Bool) (fetch : FetchOutcome) (forceRefresh : Bool)
    (now ttl : Int) (st : MenuCache) : Menu × MenuCache :=
  if menuCacheHit st forceRefresh now ttl then (st.cachedMenu.getD emptyMenu, st)
  else if !urlSet then (emptyMenu, ⟨some emptyMenu, some now⟩)
  else
    match fetch with
    | .success m => (m, ⟨some m, some now⟩)
    | .failure => (emptyMenu, ⟨some emptyMenu, some now⟩)

/-- An order dict as created by `checkout_order` and mutated by
`finalize_order`.  `savedAt = none` and `total = none` stand for the key being
absent or `None` (the source never distinguishes the two, and never computes a
numeric total). -/
structure Order where
  orderNumber : String
  items : List CartItem
  phone : Option String
  status : String
  createdAt : Int
  committed : Bool
  address : Option String
  orderType : Option String
  savedAt : Option String
  total : Option ℚ
deriving DecidableEq, Repr

/-- One session's state, as held by the `_get_store` /
`_get_order_type_store` dictionaries of business_logic.py: the cart, the
committed-orders dict, the pending-orders dict and the order-type slot. -/
structure SessionState where
  cart : List CartItem
  orders : List (String × Order)
  pending : List (String × Order)
  orderType : Option String
deriving DecidableEq, Repr

/-- Result of `finalize_order`: `err` is `{"ok": False, "error": msg}`;
`ok o w` is `{"ok": True, **o}` plus an optional `"warning"` key when
persistence failed. -/
inductive FinalizeResult
  | err (msg : String)
  | ok (order : Order) (warning : Option String)
deriving DecidableEq, Repr

/-- `finalize_order(order_number)` from business_logic.py for one session.
`nowIso` is the `now_iso()` timestamp; `persistErr` is the exception text of
`add_order` when the off-thread persistence fails (the import of orders_store
always succeeds in this code base, so `saved_at` is always stamped).  Pops the
pending order, re-snapshots the cart into it when the cart is non-empty, marks
it committed, stores it in the orders dict, clears the cart, and clears the
per-call order-type store when a call sid is present; `created_at` is always
present already and the `total` key is left as checkout created it — no
pricing of any kind is computed. -/
def finalizeOrder (nowIso : String) (persistErr : Option String)
    (callSid : Option String) (st : SessionState) (orderNumber : String) :
    FinalizeResult × SessionState :=
  match dictLookup st.pending orderNumber with
  | none => (.err "Pending order not found.", st)
  | some order₀ =>
    let order₁ := if st.cart.isEmpty then order₀ else { order₀ with items := st.cart }
    let order₂ := { order₁ with committed := true, savedAt := some nowIso }
    let st₁ : SessionState :=
      { cart := [],
        orders := dictInsert st.orders orderNumber order₂,
        pending := dictErase st.pending orderNumber,
        orderType := if callSid.isSome then none else st.orderType }
    (.ok order₂ (persistErr.map (fun e => "Failed to persist order: " ++ e)), st₁)

/-- Result of `checkout_order`: `err` is exactly `{"ok": False, "error": msg}`;
`limitReached` is the per-phone-limit rejection dict with its structured extra
fields; `ok o` is `{"ok": True, **o}` (`o` being the order object after the
in-line `finalize_order` call mutated it).  -/
inductive CheckoutResult
  | err (msg : String)
  | limitReached (errMsg : String) (activeOrders cartPizzas maxAllowed : Nat)
  | ok (order : Order)
deriving DecidableEq, Repr

/-- The tail of `checkout_order` once the cart is known non-empty and the
phone limit has passed: build the pending order, store it, finalize it
(the order dict is shared, so the returned order carries finalize's
mutations). -/
def checkoutFinish (orderNo : String) (createdAt : Int) (nowIso : String)
    (persistErr : Option String) (phoneNorm addrNorm otVal : Option String)
    (callSid : Option String) (st₀ : SessionState) : CheckoutResult × SessionState :=
  let order : Order :=
    { orderNumber := orderNo, items := st₀.cart, phone := phoneNorm,
      status := "received", createdAt := createdAt, committed := false,
      address := addrNorm, orderType := otVal, savedAt := none, total := none }
  let st₁ := { st₀ with pending := dictInsert st₀.pending orderNo order }
  let fin := finalizeOrder nowIso persistErr callSid st₁ orderNo
  match fin.1 with
  | .ok o _ => (.ok o, fin.2)
  | .err _ => (.ok order, fin.2)

/-- `checkout_order(phone, address, order_type)` from business_logic.py for one
session.  `orderNo` stands for `random_order_no()`, `createdAt` for
`int(time.time())`, `activeOrdersForPhone` for
`orders_store.count_active_orders_for_phone`.  Saves the order type first
(outside the cart lock), rejects an empty cart, normalizes phone and address,
enforces MAX_ORDERS_PER_PHONE, then creates the pending order and finalizes it
in-line. -/
def checkoutOrder (orderNo : String) (createdAt : Int)
    (activeOrdersForPhone : String → Nat) (nowIso : String)
    (persistErr : Option String) (phone address orderType : Option String)
    (callSid : Option String) (st : SessionState) : CheckoutResult × SessionState :=
  let stepOT := match orderType with
    | none => ((none : Option String), st.orderType)
    | some ot => saveOrderType (some ot) st.orderType
  let st₀ := { st with orderType := stepOT.2 }
  if st₀.cart.isEmpty then (.err "Cart is empty.", st₀)
  else
    let phoneNorm := match phone with
      | none => none
      | some p => if p == "" then none else normalizePhone p
    let addrNorm := match address with
      | none => none
      | some a => if pyStrip a == "" then none else some (pyStrip a)
    match phoneNorm with
    | some pn =>
      let active := activeOrdersForPhone pn
      let cartSize := st₀.cart.length
      if active + cartSize > 5 then
        (.limitReached
          ("You currently have " ++ toString active ++ " active order(s). Adding "
            ++ toString cartSize
            ++ " more would exceed the limit of 5 active orders per phone number. "
            ++ "Please wait for your current orders to be ready.")
          active cartSize 5, st₀)
      else checkoutFinish orderNo createdAt nowIso persistErr phoneNorm addrNorm
        stepOT.1 callSid st₀
    | none => checkoutFinish orderNo createdAt nowIso persistErr none addrNorm
        stepOT.1 callSid st₀

/-- The keyword parameters each wrapper in agent_functions.FUNCTION_MAP
accepts (its Python signature; none of them takes `**kwargs`).  `none` means
the function name is not in FUNCTION_MAP. -/
def acceptedParams : String → Option (List String)
  | "menu_summary" => some []
  | "add_to_cart" =>
    some ["customer_name", "item", "flavor", "toppings", "size", "quantity",
      "address", "call_sid"]
  | "remove_from_cart" => some ["index", "call_sid"]
  | "modify_cart_item" =>
    some ["index", "flavor", "toppings", "size", "quantity", "addons", "call_sid"]
  | "set_size_quantity" => some ["index", "size", "quantity", "call_sid"]
  | "get_cart" => some ["call_sid"]
  | "order_is_placed" => some ["call_sid"]
  | "checkout_order" => some ["phone", "address", "order_type", "call_sid"]
  | "order_status" => some ["phone", "order_number", "call_sid"]
  | "extract_phone_and_order" => some ["text"]
  | "save_phone_number" => some ["phone", "call_sid"]
  | "confirm_phone_number" => some ["confirmed", "call_sid"]
  | "confirm_pending_to_cart" => some ["call_sid"]
  | "clear_pending_item" => some ["call_sid"]
  | "save_address" => some ["address", "call_sid"]
  | "get_order_type" => some ["call_sid"]
  | "save_order_type" => some ["order_type", "call_sid"]
  | "get_cart_totals_for_call" => some ["call_sid"]
  | "calculate_cart_total" => some ["cart", "call_sid"]
  | "apply_pricing_adjustments" =>
    some ["subtotal", "order_type", "promo_code", "call_sid"]
  | _ => none

/-- The parameters without defaults in each wrapper's signature (a call that
omits one raises `TypeError`, like a call that passes an unexpected keyword). -/
def requiredParams : String → List String
  | "remove_from_cart" => ["index"]
  | "modify_cart_item" => ["index"]
  | "extract_phone_and_order" => ["text"]
  | "save_phone_number" => ["phone"]
  | "confirm_phone_number" => ["confirmed"]
  | "save_address" => ["address"]
  | "save_order_type" => ["order_type"]
  | "calculate_cart_total" => ["cart"]
  | "apply_pricing_adjustments" => ["subtotal"]
  | _ => []

/-- Does the argument dict contain key `k`? -/
def argHasKey (args : List (String × String)) (k : String) : Bool :=
  args.any (fun p => p.1 == k)

/-- How `call_agent_function` disposes of one call.  `invoked kwargs` means the
target wrapper is actually entered with exactly these keyword arguments;
`signatureMismatch` is the `except TypeError` branch returning
`{"ok": False, "error": "Function signature mismatch: ..."}`;
`unknownFunction` is `{"ok": False, "error": "Unknown function: ..."}`. -/
inductive DispatchOutcome
  | unknownFunction
  | invoked (kwargs : List (String × String))
  | signatureMismatch
deriving DecidableEq, Repr

/-- `call_agent_function(name, arguments, connection_id=...)` from
agent_functions.py, at the argument-plumbing level.  `arguments` is the parsed
argument object (argument values are opaque and modelled as strings);
`hintCallSid` is the call sid the `sessions` map yields for the connection id,
when any.  The dispatcher pops `call_sid`, falls back to the hint when the
popped value is falsy, renames `flavor` to `item` whenever no explicit `item`
was given, appends `call_sid` when the callee accepts it, and the resulting
keyword set either binds against the callee's signature or raises `TypeError`,
which the dispatcher converts into a rejection. -/
def callAgentFunction (name : String) (arguments : List (String × String))
    (hintCallSid : Option String) : DispatchOutcome :=
  match acceptedParams name with
  | none => .unknownFunction
  | some accepted =>
    let popped := dictLookup arguments "call_sid"
    let args₁ := dictErase arguments "call_sid"
    let callSid : Option String :=
      match popped with
      | some v =>
        if v == "" then
          match hintCallSid with
          | some h₀ => some h₀
          | none => some v
        else some v
      | none => hintCallSid
    let args₂ :=
      if argHasKey args₁ "flavor" && !argHasKey args₁ "item" then
        dictErase args₁ "flavor" ++ [("item", (dictLookup args₁ "flavor").getD "")]
      else args₁
    let kwargs :=
      match callSid with
      | some sid =>
        if accepted.contains "call_sid" then args₂ ++ [("call_sid", sid)] else args₂
      | none => args₂
    if kwargs.all (fun p => accepted.contains p.1)
        && (requiredParams name).all (fun r => argHasKey kwargs r) then
      .invoked kwargs
    else .signatureMismatch

/-- Menu fixture used by the concrete cart scenarios below. -/
def testMenu : Menu :=
  { flavors := ["Margherita"], toppings := ["paneer"], addons := [],
    sizes := ["Small", "Medium", "Large"], prices := [] }

/-- The cart entry `add_to_cart` builds for `"margherita"` with no toppings and
no explicit size against `testMenu`. -/
def margheritaSmall : CartItem :=
  { item := "Margherita", toppings := [], size := some "Small",
    customerName := none, address := none, quantity := none }

/-- A cart reachable from the empty cart by one `add_to_cart` (one entry,
no quantity field) followed by one `set_size_quantity` attaching
`quantity = 5`: its total active quantity is exactly MAX_PIZZAS. -/
def quantityFiveCart : List CartItem :=
  (setSizeQuantity ((addToCart testMenu [] "margherita" [] none none none none).2)
    none none (some 5)).2

/-- Pending-order fixture for the finalize scenarios: the order
`checkout_order` builds for a one-item cart. -/
def c1Pending : Order :=
  { orderNumber := "0042",
    items := [{ item := "Margherita", toppings := [], size := some "Small",
                customerName := none, address := none, quantity := none }],
    phone := some "+14155552671", status := "received", createdAt := 1700000000,
    committed := false, address := none, orderType := some "pickup",
    savedAt := none, total := none }

/-- Session fixture holding `c1Pending` with the same one-item cart. -/
def c1State : SessionState :=
  { cart := [{ item := "Margherita", toppings := [], size := some "Small",
               customerName := none, address := none, quantity := none }],
    orders := [], pending := [("0042", c1Pending)], orderType := some "pickup" }

example : matchWithAliases "PANEER" ["paneer"] [] = some "paneer" := by decide
example : matchWithAliases "panir" [] [("paneer", ["panir"])] = some "paneer" := by decide
example : matchWithAliases "xyz" ["paneer"] [] = none := by decide

theorem dictLookup_dictInsert_self {α : Type} (d : List (String × α)) (k : String)
    (v : α) : dictLookup (dictInsert d k v) k = some v := by
  induction d with
  | nil => simp [dictInsert, dictLookup]
  | cons p rest ih =>
    by_cases hk : (p.1 == k) = true
    · simp [dictInsert, dictLookup, hk]
    · simp [dictInsert, dictLookup, hk, ih]

theorem dictLookup_dictErase_self {α : Type} (d : List (String × α)) (k : String) :
    dictLookup (dictErase d k) k = none := by
  induction d with
  | nil => simp [dictErase, dictLookup]
  | cons p rest ih =>
    by_cases hk : (p.1 == k) = true
    · simp [dictErase, dictLookup, hk, ih]
    · simp [dictErase, dictLookup, hk, ih]

theorem dictLookup_mem_values {α : Type} (d : List (String × α)) (k : String)
    (v : α) (h : dictLookup d k = some v) : v ∈ d.map Prod.snd := by
  induction d with
  | nil => simp [dictLookup] at h
  | cons p rest ih =>
    rw [dictLookup] at h
    by_cases hk : (p.1 == k) = true
    · rw [if_pos hk] at h
      simp at h
      simp [h]
    · rw [if_neg hk] at h
      simp [ih h]

theorem aliasLoop_append_first (v : String) (cmap : List (String × String))
    (pre : List (String × List String)) (e : String × List String)
    (post : List (String × List String))
    (hpre : ∀ e₀ ∈ pre, entryMatches v e₀ = false)
    (he : entryMatches v e = true) :
    aliasLoop v cmap (pre ++ e :: post) =
      some ((dictLookup cmap (pyNormalize e.1)).getD e.1) := by
  induction pre with
  | nil => simp [aliasLoop, he]
  | cons p rest ih =>
    have hp : entryMatches v p = false := hpre p (List.mem_cons_self p rest)
    simp only [List.cons_append, aliasLoop, hp, Bool.false_eq_true, if_false]
    exact ih (fun e₀ h₀ => hpre e₀ (List.mem_cons_of_mem p h₀))

/-- C3 (counterexample): with a previously fetched menu in the cache but the
TTL expired (cached at 100, read at 1000, TTL 300), a failing remote fetch
makes `get_menu` return the canonical empty menu — not the cached menu — and
it also overwrites the cache with the empty menu. -/
theorem c3_counterexample :
    getMenu true FetchOutcome.failure false 1000 300 ⟨some testMenu, some 100⟩ =
      (emptyMenu, ⟨some emptyMenu, some 1000⟩) ∧ testMenu ≠ emptyMenu := by
  decide

/-- C3 (amended): on a failing fetch (or an unset menu URL), `get_menu` returns
the cached menu exactly when the cache-hit test passes (a cached menu exists,
no force refresh, a truthy timestamp still within the TTL); in every other
case it returns the canonical empty menu and overwrites the cache with it.
The previously cached menu is not used as a fallback once the TTL has
expired. -/
theorem c3_menu_fetch_failure (urlSet forceRefresh : Bool) (now ttl : Int)
    (st : MenuCache) :
    (getMenu urlSet FetchOutcome.failure forceRefresh now ttl st).1 =
      (if menuCacheHit st forceRefresh now ttl then st.cachedMenu.getD emptyMenu
       else emptyMenu) ∧
    (getMenu urlSet FetchOutcome.failure forceRefresh now ttl st).2.cachedMenu =
      (if menuCacheHit st forceRefresh now ttl then st.cachedMenu
       else some emptyMenu) := by
  by_cases h : menuCacheHit st forceRefresh now ttl
  · simp [getMenu, h]
  · cases urlSet <;> simp [getMenu, h]

/-- C4 (counterexample): with aliases `{"a": {"xy"}, "b": {"x"}}` and input
`"x"`, the matcher returns `"a"` through the substring test on the earlier
entry's variant `"xy"`, even though an exact alias match (`"b"`'s variant
`"x"`) exists; the claimed priority of exact alias matches over every
substring match would require `"b"`. -/
theorem c4_counterexample :
    matchWithAliases "x" [] [("a", ["xy"]), ("b", ["x"])] = some "a" ∧
    matchWithAliases "x" [] [("a", ["xy"]), ("b", ["x"])] ≠ some "b" := by
  decide

/-- C4 (amended): after the exact canonical-name rule, the alias table is
scanned in insertion order and, for each entry, the exact key / exact variant
/ substring-variant tests are applied together — so the first entry that
matches in any of these ways wins.  An exact alias match is therefore
preferred over substring matches against canonical names and over matches in
later entries, but not over a substring match in an earlier entry. -/
theorem c4_alias_priority (value : String) (canons : List String)
    (pre : List (String × List String)) (e : String × List String)
    (post : List (String × List String))
    (h0 : value ≠ "")
    (h1 : dictLookup (buildCanonicalMap canons) (pyNormalize value) = none)
    (hpre : ∀ e₀ ∈ pre, entryMatches (pyNormalize value) e₀ = false)
    (he : entryMatches (pyNormalize value) e = true) :
    matchWithAliases value canons (pre ++ e :: post) =
      some ((dictLookup (buildCanonicalMap canons) (pyNormalize e.1)).getD e.1) := by
  have h0' : (value == "") = false := by simp [h0]
  unfold matchWithAliases
  simp only [h0', Bool.false_eq_true, if_false, h1]
  rw [aliasLoop_append_first (pyNormalize value) (buildCanonicalMap canons) pre e post
    hpre he]

/-- C4 (witness for the amended theorem): input `"corn"` against canonical list
`["sweet corn"]` with the earlier entry `("onion", {"onion"})` not matching
and the entry `("sweet corn", {"sweet corn", "corn"})` matching, resolves to
`"sweet corn"`. -/
theorem c4_alias_priority_witness :
    ("corn" : String) ≠ "" ∧
    dictLookup (buildCanonicalMap ["sweet corn"]) (pyNormalize "corn") = none ∧
    (∀ e₀ ∈ [(("onion" : String), ["onion"])],
      entryMatches (pyNormalize "corn") e₀ = false) ∧
    entryMatches (pyNormalize "corn") ("sweet corn", ["sweet corn", "corn"]) = true ∧
    matchWithAliases "corn" ["sweet corn"]
        ([("onion", ["onion"])] ++ ("sweet corn", ["sweet corn", "corn"]) :: []) =
      some ((dictLookup (buildCanonicalMap ["sweet corn"])
        (pyNormalize ("sweet corn", ["sweet corn", "corn"]).1)).getD
          ("sweet corn", ["sweet corn", "corn"]).1) :=
  ⟨by decide, by decide, by decide, by decide,
   c4_alias_priority "corn" ["sweet corn"] [("onion", ["onion"])]
     ("sweet corn", ["sweet corn", "corn"]) [] (by decide) (by decide) (by decide)
     (by decide)⟩

/-- C9 (code bug): the dispatcher renames `flavor` to `item` unconditionally
(whenever no explicit `item` is present), without checking whether the callee
accepts `item`.  For `modify_cart_item`, whose wrapper accepts `flavor` but
not `item`, the renamed call raises `TypeError` and is
rejected as a signature mismatch; the same arguments reach `add_to_cart`
(which does accept `item`) renamed.  The claim — rename only when the callee
expects `item`, so that `modify_cart_item` still receives `flavor` — matches
the wrapper's declared schema and comment, and the dispatcher contradicts
it. -/
theorem c9_dispatcher_flavor_rename :
    callAgentFunction "modify_cart_item" [("index", "0"), ("flavor", "Margherita")]
      none = DispatchOutcome.signatureMismatch ∧
    callAgentFunction "add_to_cart" [("flavor", "Margherita")] none =
      DispatchOutcome.invoked [("item", "Margherita")] := by
  decide

/-- C10: the order-type slot only ever holds `"pickup"`, `"delivery"` or stays
unset: `save_order_type` normalizes its input, consults VALID_ORDER_TYPES,
then leniently maps inputs containing `"pick"` to pickup and inputs containing
`"deliv"` to delivery, and on any other input returns `None` leaving the slot
unchanged. -/
theorem c10_save_order_type (input : Option String) (slot : Option String)
    (h : slotOK slot) :
    slotOK (saveOrderType input slot).2 ∧
    (input = none → saveOrderType input slot = (none, slot)) ∧
    (∀ s v, input = some s →
      dictLookup VALID_ORDER_TYPES (pyNormalize s) = some v →
      saveOrderType input slot = (some v, some v)) ∧
    (∀ s, input = some s →
      dictLookup VALID_ORDER_TYPES (pyNormalize s) = none →
      pyIn "pick" (pyNormalize s) = true →
      saveOrderType input slot = (some "pickup", some "pickup")) ∧
    (∀ s, input = some s →
      dictLookup VALID_ORDER_TYPES (pyNormalize s) = none →
      pyIn "pick" (pyNormalize s) = false → pyIn "deliv" (pyNormalize s) = true →
      saveOrderType input slot = (some "delivery", some "delivery")) ∧
    (∀ s, input = some s →
      dictLookup VALID_ORDER_TYPES (pyNormalize s) = none →
      pyIn "pick" (pyNormalize s) = false → pyIn "deliv" (pyNormalize s) = false →
      saveOrderType input slot = (none, slot)) := by
  refine ⟨?_, ?_, ?_, ?_, ?_, ?_⟩
  · cases input with
    | none => simpa [saveOrderType] using h
    | some s =>
      unfold saveOrderType
      cases hlk : dictLookup VALID_ORDER_TYPES (pyNormalize s) with
      | some v =>
        have hv := dictLookup_mem_values _ _ _ hlk
        have hvv : v = "pickup" ∨ v = "delivery" := by
          simpa [VALID_ORDER_TYPES] using hv
        rcases hvv with hvv | hvv <;> simp [hlk, hvv, slotOK]
      | none =>
        by_cases hp : pyIn "pick" (pyNormalize s) = true
        · simp [hlk, hp, slotOK]
        · by_cases hd : pyIn "deliv" (pyNormalize s) = true
          · simp [hlk, hp, hd, slotOK]
          · simpa [hlk, hp, hd, slotOK] using h
  · intro hi; subst hi; rfl
  · intro s v hi hlk; subst hi; simp [saveOrderType, hlk]
  · intro s hi hlk hp; subst hi; simp [saveOrderType, hlk, hp]
  · intro s hi hlk hp hd; subst hi; simp [saveOrderType, hlk, hp, hd]
  · intro s hi hlk hp hd; subst hi; simp [saveOrderType, hlk, hp, hd]

/-- C10 (witness): a concrete run — `"drop it off"` matches no spelling and
contains neither `"pick"` nor `"deliv"`, so a slot holding `"pickup"` is left
unchanged and the call returns `None`. -/
theorem c10_save_order_type_witness :
    slotOK (some "pickup") ∧
    (slotOK (saveOrderType (some "drop it off") (some "pickup")).2 ∧
     (some "drop it off" = none →
       saveOrderType (some "drop it off") (some "pickup") = (none, some "pickup")) ∧
     (∀ s v, some "drop it off" = some s →
       dictLookup VALID_ORDER_TYPES (pyNormalize s) = some v →
       saveOrderType (some "drop it off") (some "pickup") = (some v, some v)) ∧
     (∀ s, some "drop it off" = some s →
       dictLookup VALID_ORDER_TYPES (pyNormalize s) = none →
       pyIn "pick" (pyNormalize s) = true →
       saveOrderType (some "drop it off") (some "pickup") =
         (some "pickup", some "pickup")) ∧
     (∀ s, some "drop it off" = some s →
       dictLookup VALID_ORDER_TYPES (pyNormalize s) = none →
       pyIn "pick" (pyNormalize s) = false → pyIn "deliv" (pyNormalize s) = true →
       saveOrderType (some "drop it off") (some "pickup") =
         (some "delivery", some "delivery")) ∧
     (∀ s, some "drop it off" = some s →
       dictLookup VALID_ORDER_TYPES (pyNormalize s) = none →
       pyIn "pick" (pyNormalize s) = false → pyIn "deliv" (pyNormalize s) = false →
       saveOrderType (some "drop it off") (some "pickup") = (none, some "pickup"))) :=
  ⟨Or.inr (Or.inl rfl),
   c10_save_order_type (some "drop it off") (some "pickup") (Or.inr (Or.inl rfl))⟩

/-- C8: `checkout_order` on an empty cart returns exactly
`{"ok": False, "error": "Cart is empty."}` and leaves the pending-orders map
(and the committed-orders map and the cart) untouched — no pending order is
created.  Only the order-type slot may have been updated, since the source
saves a supplied order type before the cart check. -/
theorem c8_checkout_empty_cart (orderNo : String) (createdAt : Int)
    (activeOrdersForPhone : String → Nat) (nowIso : String)
    (persistErr : Option String) (phone address orderType callSid : Option String)
    (st : SessionState) (h : st.cart = []) :
    (checkoutOrder orderNo createdAt activeOrdersForPhone nowIso persistErr
      phone address orderType callSid st).1 = CheckoutResult.err "Cart is empty." ∧
    (checkoutOrder orderNo createdAt activeOrdersForPhone nowIso persistErr
      phone address orderType callSid st).2.pending = st.pending ∧
    (checkoutOrder orderNo createdAt activeOrdersForPhone nowIso persistErr
      phone address orderType callSid st).2.orders = st.orders ∧
    (checkoutOrder orderNo createdAt activeOrdersForPhone nowIso persistErr
      phone address orderType callSid st).2.cart = [] := by
  cases orderType <;> simp [checkoutOrder, h]

/-- C8 (witness): a concrete empty-cart checkout. -/
theorem c8_checkout_empty_cart_witness :
    (SessionState.mk [] [] [] none).cart = [] ∧
    ((checkoutOrder "0001" 0 (fun _ => 0) "t" none none none (some "pickup") none
      (SessionState.mk [] [] [] none)).1 = CheckoutResult.err "Cart is empty." ∧
     (checkoutOrder "0001" 0 (fun _ => 0) "t" none none none (some "pickup") none
      (SessionState.mk [] [] [] none)).2.pending = (SessionState.mk [] [] [] none).pending ∧
     (checkoutOrder "0001" 0 (fun _ => 0) "t" none none none (some "pickup") none
      (SessionState.mk [] [] [] none)).2.orders = (SessionState.mk [] [] [] none).orders ∧
     (checkoutOrder "0001" 0 (fun _ => 0) "t" none none none (some "pickup") none
      (SessionState.mk [] [] [] none)).2.cart = []) :=
  ⟨rfl, c8_checkout_empty_cart "0001" 0 (fun _ => 0) "t" none none none
    (some "pickup") none (SessionState.mk [] [] [] none) rfl⟩

/-- C1 (counterexample): finalizing the concrete pending order `"0042"` does
move it from pending to committed and clears the cart, but the returned
order's `total` is `None` — no pricing is recomputed from the menu at finalize
time (the source has no pricing computation at all in this path), so the
returned order carries no `pricing.total` equal to a priced cart. -/
theorem c1_counterexample :
    (finalizeOrder "2024-01-01T00:00:00" none (some "CA123") c1State "0042").1 =
      FinalizeResult.ok { c1Pending with
                          committed := true,
                          savedAt := some "2024-01-01T00:00:00" } none ∧
    ({ c1Pending with
       committed := true,
       savedAt := some "2024-01-01T00:00:00" } : Order).total = none ∧
    (finalizeOrder "2024-01-01T00:00:00" none (some "CA123") c1State "0042").2.cart
      = [] ∧
    dictLookup (finalizeOrder "2024-01-01T00:00:00" none (some "CA123") c1State
      "0042").2.pending "0042" = none := by
  decide

/-- C1 (amended): for every session state whose pending map holds order `n`,
`finalize_order(n)` succeeds, removes `n` from pending, stores a committed
order under `n` in the orders map, re-snapshots the cart into it when the cart
is non-empty, clears the cart, and stamps `saved_at` — but it does not
recompute any pricing: the `total` field is exactly what the pending order
already carried (always `None` for orders created by `checkout_order`), and no
pricing structure exists on the order. -/
theorem c1_finalize_moves_and_skips_pricing (nowIso : String)
    (persistErr : Option String) (callSid : Option String) (st : SessionState)
    (n : String) (ord : Order) (h : dictLookup st.pending n = some ord) :
    ∃ o : Order,
      finalizeOrder nowIso persistErr callSid st n =
        (FinalizeResult.ok o (persistErr.map
            (fun e => "Failed to persist order: " ++ e)),
         { cart := [], orders := dictInsert st.orders n o,
           pending := dictErase st.pending n,
           orderType := if callSid.isSome then none else st.orderType }) ∧
      o.committed = true ∧
      o.savedAt = some nowIso ∧
      o.total = ord.total ∧
      o.items = (if st.cart.isEmpty then ord.items else st.cart) ∧
      dictLookup (dictErase st.pending n) n = none ∧
      dictLookup (dictInsert st.orders n o) n = some o := by
  refine ⟨{ (if st.cart.isEmpty then ord else { ord with items := st.cart }) with
            committed := true, savedAt := some nowIso }, ?_, rfl, rfl, ?_, ?_, ?_, ?_⟩
  · unfold finalizeOrder
    rw [h]
  · by_cases hc : st.cart.isEmpty <;> simp [hc]
  · by_cases hc : st.cart.isEmpty <;> simp [hc]
  · exact dictLookup_dictErase_self st.pending n
  · exact dictLookup_dictInsert_self st.orders n _

/-- C1 (witness for the amended theorem): the amended statement instantiated
at the concrete session fixture. -/
theorem c1_finalize_witness :
    dictLookup c1State.pending "0042" = some c1Pending ∧
    (∃ o : Order,
      finalizeOrder "t0" (some "disk full") (some "CA123") c1State "0042" =
        (FinalizeResult.ok o ((some "disk full").map
            (fun e => "Failed to persist order: " ++ e)),
         { cart := [], orders := dictInsert c1State.orders "0042" o,
           pending := dictErase c1State.pending "0042",
           orderType := if (some "CA123").isSome then none else c1State.orderType }) ∧
      o.committed = true ∧
      o.savedAt = some "t0" ∧
      o.total = c1Pending.total ∧
      o.items = (if c1State.cart.isEmpty then c1Pending.items else c1State.cart) ∧
      dictLookup (dictErase c1State.pending "0042") "0042" = none ∧
      dictLookup (dictInsert c1State.orders "0042" o) "0042" = some o) :=
  ⟨by decide, c1_finalize_moves_and_skips_pricing "t0" (some "disk full")
    (some "CA123") c1State "0042" c1Pending (by decide)⟩

/-- C6 (counterexample): `get_cart` copies only the list, not the item dicts.
For the concrete one-item session, mutating the item object reachable through
the snapshot (reference 0, setting its size to Large) changes the live cart
observed by a later `get_cart`. -/
theorem c6_counterexample :
    0 ∈ getCartSnapshot (PyCartState.mk [margheritaSmall] [0]) ∧
    liveCartView (mutateItemObject (PyCartState.mk [margheritaSmall] [0]) 0
        (fun it => { it with size := some "Large" })) ≠
      liveCartView (PyCartState.mk [margheritaSmall] [0]) := by
  decide

/-- C6 (amended): the snapshot `get_cart` returns is a fresh list sharing the
cart's item objects.  Hence (a) the snapshot resolves to exactly the live cart
at read time, (b) later structural growth of the live cart does not change
what the snapshot denotes (the list itself was copied), but (c) the item
objects are shared, so an in-place mutation of an item reached through the
snapshot is observed identically by the live cart. -/
theorem c6_snapshot_copy_semantics (s : PyCartState) (hwf : WFCartState s) :
    resolveRefs s.heap (getCartSnapshot s) = liveCartView s ∧
    (∀ it : CartItem,
      resolveRefs (appendNewItem s it).heap (getCartSnapshot s) = liveCartView s) ∧
    (∀ (r : Nat) (f : CartItem → CartItem), r ∈ getCartSnapshot s →
      liveCartView (mutateItemObject s r f) =
        resolveRefs (mutateItemObject s r f).heap (getCartSnapshot s)) := by
  refine ⟨rfl, ?_, ?_⟩
  · intro it
    unfold appendNewItem liveCartView resolveRefs getCartSnapshot
    apply List.map_congr_left
    intro r hr
    exact List.getD_append s.heap [it] defaultCartItem r (hwf r hr)
  · intro r f hr
    rfl

/-- C6 (witness for the amended theorem): the amended statement instantiated at
the concrete one-item session. -/
theorem c6_snapshot_witness :
    WFCartState (PyCartState.mk [margheritaSmall] [0]) ∧
    (resolveRefs (PyCartState.mk [margheritaSmall] [0]).heap
        (getCartSnapshot (PyCartState.mk [margheritaSmall] [0])) =
      liveCartView (PyCartState.mk [margheritaSmall] [0]) ∧
     (∀ it : CartItem,
       resolveRefs (appendNewItem (PyCartState.mk [margheritaSmall] [0]) it).heap
           (getCartSnapshot (PyCartState.mk [margheritaSmall] [0])) =
         liveCartView (PyCartState.mk [margheritaSmall] [0])) ∧
     (∀ (r : Nat) (f : CartItem → CartItem),
       r ∈ getCartSnapshot (PyCartState.mk [margheritaSmall] [0]) →
       liveCartView (mutateItemObject (PyCartState.mk [margheritaSmall] [0]) r f) =
         resolveRefs (mutateItemObject (PyCartState.mk [margheritaSmall] [0]) r f).heap
           (getCartSnapshot (PyCartState.mk [margheritaSmall] [0])))) :=
  ⟨by unfold WFCartState; decide,
   c6_snapshot_copy_semantics (PyCartState.mk [margheritaSmall] [0])
    (by unfold WFCartState; decide)⟩

/-- C7 (counterexample): `quantityFiveCart` is reachable by an `add_to_cart`
followed by a `set_size_quantity` and already carries total active quantity 5.
A further `add_to_cart` of one pizza would push the cumulative quantity to 6,
past MAX_PIZZAS — yet the call succeeds (the source only checks the entry
count `len(CART)`, which is 1), and the cart afterwards has total active
quantity 6. -/
theorem c7_counterexample :
    totalActiveQuantity quantityFiveCart = 5 ∧
    (addToCart testMenu quantityFiveCart "margherita" [] none none none
      (some 1)).1 = AddToCartResult.ok 2 margheritaSmall ∧
    totalActiveQuantity (addToCart testMenu quantityFiveCart "margherita" []
      none none none (some 1)).2 = 6 := by
  decide

/-- C7 (amended): `add_to_cart`'s rejection is keyed to the entry count, not
the quantity-weighted total: whenever `len(CART) + (quantity or 1)` exceeds
MAX_PIZZAS, the call returns `{"ok": False, "error": "Max 5 pizzas per
order."}` and the cart is exactly the cart that existed before the call — no
partial add occurs. -/
theorem c7_add_rejects_on_entry_count (menu : Menu) (cart : List CartItem)
    (item : String) (toppings : List String)
    (customerName address size : Option String) (quantity : Option Int)
    (h1 : item ≠ "") (h2 : (cart.length : Int) + pyOrOne quantity > 5) :
    addToCart menu cart item toppings customerName address size quantity =
      (AddToCartResult.err "Max 5 pizzas per order.", cart) := by
  unfold addToCart
  rw [if_neg (by simp [h1]), if_pos h2]

/-- C7 (witness for the amended theorem): a sixth pizza on a five-entry cart
is rejected and the cart is unchanged. -/
theorem c7_add_rejects_witness :
    ("margherita" : String) ≠ "" ∧
    ((List.replicate 5 margheritaSmall).length : Int) + pyOrOne (some 1) > 5 ∧
    addToCart testMenu (List.replicate 5 margheritaSmall) "margherita" [] none
        none none (some 1) =
      (AddToCartResult.err "Max 5 pizzas per order.", List.replicate 5 margheritaSmall) :=
  ⟨by decide, by decide,
   c7_add_rejects_on_entry_count testMenu (List.replicate 5 margheritaSmall)
     "margherita" [] none none none (some 1) (by decide) (by decide)⟩

/-- C2 (counterexample): starting from the empty cart (total active quantity
0), one `add_to_cart` yields total 1, and then a single `set_size_quantity`
with quantity 10 succeeds and leaves the session's total active pizza quantity
at 10 > MAX_PIZZAS: the operations do not preserve the claimed invariant,
because `modify_cart_item` and `set_size_quantity` attach a quantity field
with no bound check of any kind. -/
theorem c2_counterexample :
    totalActiveQuantity ((addToCart testMenu [] "margherita" [] none none none
      none).2) = 1 ∧
    (setSizeQuantity ((addToCart testMenu [] "margherita" [] none none none
      none).2) none none (some 10)).1 =
      SetSizeQtyResult.ok { margheritaSmall with quantity := some 10 } ∧
    totalActiveQuantity (setSizeQuantity ((addToCart testMenu [] "margherita" []
      none none none none).2) none none (some 10)).2 = 10 := by
  decide

/-- C2 (amended): `add_to_cart` alone does preserve the bound — it enforces
`len(CART) + quantity ≤ MAX_PIZZAS` and appends entries without quantity
fields, so the entry count (which equals the total active quantity on carts
built by `add_to_cart` alone) never exceeds 5; but `modify_cart_item` and
`set_size_quantity` attach arbitrary quantity fields without any check, so the
quantity-weighted total can exceed MAX_PIZZAS. -/
theorem c2_add_preserves_entry_bound (menu : Menu) (cart : List CartItem)
    (item : String) (toppings : List String)
    (customerName address size : Option String) (quantity : Option Int)
    (h : cart.length ≤ 5) :
    ((addToCart menu cart item toppings customerName address size quantity).2).length
      ≤ 5 ∧
    ∀ it ∈ (addToCart menu cart item toppings customerName address size quantity).2,
      it ∈ cart ∨ it.quantity = none := by
  unfold addToCart
  split
  next h1 => exact ⟨h, fun it hit => Or.inl hit⟩
  next h1 =>
    split
    next h2 => exact ⟨h, fun it hit => Or.inl hit⟩
    next h2 =>
      split
      next hm => exact ⟨h, fun it hit => Or.inl hit⟩
      next canonicalItem hm =>
        split
        next t ht => exact ⟨h, fun it hit => Or.inl hit⟩
        next topsOut ht =>
          split
          next h3 => exact ⟨h, fun it hit => Or.inl hit⟩
          next h3 =>
            constructor
            · simp only [List.length_append, List.length_replicate]
              omega
            · intro it hit
              rcases List.mem_append.mp hit with hit | hit
              · exact Or.inl hit
              · exact Or.inr (by rw [(List.eq_of_mem_replicate hit)])

/-- C2 (witness for the amended theorem): adding two pizzas to a cart of three
keeps the entry count within the bound. -/
theorem c2_add_preserves_entry_bound_witness :
    (List.replicate 3 margheritaSmall).length ≤ 5 ∧
    (((addToCart testMenu (List.replicate 3 margheritaSmall) "margherita" [] none
        none none (some 2)).2).length ≤ 5 ∧
     ∀ it ∈ (addToCart testMenu (List.replicate 3 margheritaSmall) "margherita" []
        none none none (some 2)).2, it ∈ List.replicate 3 margheritaSmall ∨
          it.quantity = none) :=
  ⟨by decide,
   c2_add_preserves_entry_bound testMenu (List.replicate 3 margheritaSmall)
     "margherita" [] none none none (some 2) (by decide)⟩

/-- C5 (counterexample): a valid add of quantity 2 to the empty cart succeeds,
but the cart afterwards holds two new entries, not exactly one — the source
appends `quantity` separate copies of the item object. -/
theorem c5_counterexample :
    (addToCart testMenu [] "margherita" [] none none none (some 2)).1 =
      AddToCartResult.ok 2 margheritaSmall ∧
    ((addToCart testMenu [] "margherita" [] none none none (some 2)).2).length
      = 2 := by
  decide

/-- C5 (amended): for a flavor the matcher resolves, toppings that all
resolve, quantity ≥ 1 and `len(CART) + quantity ≤ MAX_PIZZAS`, `add_to_cart`
succeeds and appends exactly `quantity` new entries, each carrying the
canonical flavor and topping names, with the size defaulted to the menu's
first listed size when unspecified, and returns the appended item together
with the new cart count. -/
theorem c5_add_appends_quantity_entries (menu : Menu) (cart : List CartItem)
    (flavorIn : String) (toppingsIn : List String)
    (customerName address size : Option String) (qty : Int)
    (c : String) (tops : List String)
    (hq : 1 ≤ qty) (hcap : (cart.length : Int) + qty ≤ 5)
    (hflavor : matchWithAliases (pyNormalize flavorIn) menu.flavors [] = some c)
    (htops : processToppings menu.toppings TOPPING_ALIASES
      (toppingsIn.map pyNormalize) = Except.ok tops) :
    addToCart menu cart flavorIn toppingsIn customerName address size (some qty) =
      (AddToCartResult.ok (cart.length + qty.toNat)
        { item := c, toppings := tops, size := defaultedSize menu size,
          customerName := customerName, address := address, quantity := none },
       cart ++ List.replicate qty.toNat
        { item := c, toppings := tops, size := defaultedSize menu size,
          customerName := customerName, address := address, quantity := none }) := by
  have hne : flavorIn ≠ "" := by
    intro he
    rw [he] at hflavor
    rw [show pyNormalize "" = "" from rfl] at hflavor
    simp [matchWithAliases] at hflavor
  have hq0 : pyOrOne (some qty) = qty := by
    have hz : ¬qty = 0 := by omega
    simp [pyOrOne, hz]
  unfold addToCart
  rw [hq0, if_neg (by simp [hne]), if_neg (by omega), hflavor, htops]
  have h3 : ¬qty < 1 := by omega
  simp [h3]

/-- C5 (witness for the amended theorem): two `"margherita"` with topping
`"corn"` (resolving to canonical `"sweet corn"`) on the empty cart. -/
theorem c5_add_appends_witness :
    (1 : Int) ≤ 2 ∧
    ((([] : List CartItem).length : Int) + 2 ≤ 5) ∧
    matchWithAliases (pyNormalize "margherita") testMenu.flavors [] =
      some "Margherita" ∧
    processToppings testMenu.toppings TOPPING_ALIASES
      (["corn"].map pyNormalize) = Except.ok ["sweet corn"] ∧
    addToCart testMenu [] "margherita" ["corn"] none none none (some 2) =
      (AddToCartResult.ok ((0 : Nat) + (2 : Int).toNat)
        { item := "Margherita", toppings := ["sweet corn"],
          size := defaultedSize testMenu none, customerName := none,
          address := none, quantity := none },
       [] ++ List.replicate (2 : Int).toNat
        { item := "Margherita", toppings := ["sweet corn"],
          size := defaultedSize testMenu none, customerName := none,
          address := none, quantity := none }) :=
  ⟨by decide, by decide, by decide, by decide,
   c5_add_appends_quantity_entries testMenu [] "margherita" ["corn"] none none
     none 2 "Margherita" ["sweet corn"] (by decide) (by decide) (by decide)
     (by decide)⟩
